import Mathlib

/-!
# Verification of the YourTranslator LINE-bot conversation state machine

Shallow embedding of the conversation state machine of the
`yourtranslator-bot` repository (`src/index.js`, a file holding several
near-duplicate revisions of the bot, and `src/unnamed/part_000`).

The embedding models:

* the language detector `detectLanguage` (final revision, `src/index.js`
  lines 1710-1718, counting all Latin letters) and the lowercase-only
  revision (`src/index.js` lines 359-368 and `src/unnamed/part_000`
  lines 1589-1597);
* the per-user profile row stored in the `users` table and every handler
  of the final revision's `handleEvent` dispatch chain
  (`src/index.js` lines 2037-2143);
* the tone-change and accept handlers of the middle revision
  (`src/index.js` lines 1409-1471), which the earlier revision of the
  tone-resolution logic lives in.

External collaborators (the OpenAI chat-completion backend and the JS
`JSON.parse` builtin) are modelled as oracle functions supplied through a
`Backend` structure; everything the handlers themselves compute is
translated from the JavaScript source.
-/

/-! ## String helpers modelling the JavaScript primitives used in the source -/

/-- Test that the character list starts with `pat`
(models JS `String.prototype.startsWith`). -/
def chPre : List Char → List Char → Bool
  | [], _ => true
  | _ :: _, [] => false
  | p :: ps, c :: cs => p == c && chPre ps cs

/-- Test that `pat` occurs contiguously inside the character list
(models JS `String.prototype.includes`). -/
def chSub (pat : List Char) : List Char → Bool
  | [] => chPre pat []
  | c :: cs => chPre pat (c :: cs) || chSub pat cs

/-- Remove the first occurrence of `pat` from `l`
(models JS `String.prototype.replace(pat, lit)` with a string pattern and
empty replacement, for a non-empty `pat`). -/
def replOnce (pat : List Char) : List Char → List Char
  | [] => []
  | c :: cs => if chPre pat (c :: cs) then List.drop pat.length (c :: cs) else c :: replOnce pat cs

/-- Whitespace class used by `trim` on the texts this bot handles. -/
def isWs (c : Char) : Bool :=
  c == ' ' || c == '\t' || c == '\n' || c == '\r' || c == '\x0b' || c == '\x0c'

/-- Drop whitespace from both ends of a character list (models JS
`String.prototype.trim` on the texts this bot handles). -/
def jsTrim (l : List Char) : List Char :=
  ((l.dropWhile isWs).reverse.dropWhile isWs).reverse

/-- String wrapper for `jsTrim`. -/
def strTrim (s : String) : String :=
  String.mk (jsTrim s.data)

/-- JS `a || b` for a nullable string `a`: `null` and `''` are falsy. -/
def jsOr (a : Option String) (b : String) : String :=
  match a with
  | none => b
  | some s => if s == "" then b else s

/-- JS truthiness of a nullable string field: `null` and `''` are falsy. -/
def isTruthy : Option String → Bool
  | none => false
  | some s => !(s == "")

/-- ASCII lowering of one character (the inputs lowered by the source are
the ASCII level tokens such as `PRE2`, so this models
`String.prototype.toLowerCase` on them). -/
def asciiLowerChar (c : Char) : Char :=
  if 65 ≤ c.toNat && c.toNat ≤ 90 then Char.ofNat (c.toNat + 32) else c

/-- ASCII lowering of a string. -/
def asciiLower (s : String) : String :=
  String.mk (s.data.map asciiLowerChar)

/-! ## Language detector (`src/index.js` lines 359-368 and 1710-1718,
`src/unnamed/part_000` lines 1589-1597)

The JS regex `/[一-龯ぁ-んァ-ン]/` tests for a character in the CJK range
U+4E00..U+9FAF, the hiragana range U+3041..U+3093 or the katakana range
U+30A1..U+30F3; `/[A-Za-z]/` (final revision) and `/[a-z]/`
(lowercase-only revision) test for Latin letters. -/

/-- A character matched by the native-script regex `[一-龯ぁ-んァ-ン]`. -/
def isJaChar (c : Char) : Bool :=
  (0x4E00 ≤ c.toNat && c.toNat ≤ 0x9FAF) ||
  (0x3041 ≤ c.toNat && c.toNat ≤ 0x3093) ||
  (0x30A1 ≤ c.toNat && c.toNat ≤ 0x30F3)

/-- A character matched by `[A-Za-z]`. -/
def isLatinChar (c : Char) : Bool :=
  (65 ≤ c.toNat && c.toNat ≤ 90) || (97 ≤ c.toNat && c.toNat ≤ 122)

/-- A character matched by `[a-z]`. -/
def isLowerLatinChar (c : Char) : Bool :=
  97 ≤ c.toNat && c.toNat ≤ 122

/-- A character matched by `[A-Z]`. -/
def isUpperLatinChar (c : Char) : Bool :=
  65 ≤ c.toNat && c.toNat ≤ 90

/-- Language detector of the final revision (`src/index.js` lines
1710-1718): `hasEn` counts every Latin letter. -/
def detectLanguage (text : String) : String :=
  let hasJa := text.data.any isJaChar
  let hasEn := text.data.any isLatinChar
  if hasJa && hasEn then "mixed"
  else if hasJa then "ja"
  else if hasEn then "en"
  else "other"

/-- Language detector of the lowercase-only revision (`src/index.js` lines
359-368, `src/unnamed/part_000` lines 1589-1597): only lowercase Latin
letters count as English, so an all-caps acronym is not English. -/
def detectLanguageLowerOnly (text : String) : String :=
  let hasJa := text.data.any isJaChar
  let hasRealEn := text.data.any isLowerLatinChar
  if hasJa && hasRealEn then "mixed"
  else if hasJa then "ja"
  else if hasRealEn then "en"
  else "other"

/-- Number of native-script characters in `s` (for stating the spec's
ratio claim about the detector). -/
def jaCharCount (s : String) : Nat :=
  s.data.countP (fun c => isJaChar c)

/-- Number of Latin-letter characters in `s`. -/
def latinCharCount (s : String) : Nat :=
  s.data.countP (fun c => isLatinChar c)

/-! ## Data model

The `users` row of the final revision (`src/index.js` lines 1665-1676):
profile preference fields are non-null strings with creation defaults; the
last-turn context fields are nullable. -/

/-- One row of the `users` table, as read and written by the handlers. -/
structure UserProfile where
  line_user_id : String
  level_type : String
  level_value : String
  english_style : String
  usage_default : String
  tone_default : String
  last_source_ja : Option String
  last_output_en : Option String
  last_source_en : Option String
  last_output_ja : Option String
  last_mode : Option String
deriving Repr, DecidableEq

/-- The profile inserted by `getOrCreateUser` for a previously unseen user
id (`src/index.js` lines 1666-1676). -/
def freshUserProfile (lineUserId : String) : UserProfile where
  line_user_id := lineUserId
  level_type := "eiken"
  level_value := "2"
  english_style := "neutral"
  usage_default := "CHAT_FRIEND"
  tone_default := "polite"
  last_source_ja := none
  last_output_en := none
  last_source_en := none
  last_output_ja := none
  last_mode := none

/-- One glossary entry as the reverse handler reads it from the parsed
JSON (`term`, `meaning_ja`, `note_ja`; an absent JS field is modelled as
the empty string, which the code treats identically via `|| ''` and
truthiness tests). -/
structure GlossEntry where
  term : String
  meaning_ja : String
  note_ja : String
deriving Repr, DecidableEq

/-- The projections of a successfully `JSON.parse`d backend reply that
`explainEnglishToJapaneseWithGlossary` reads: the `ja` field (`none`
models an absent or non-string field, folded to `''` by `|| ''`) and the
`glossary` field (`none` models a value that is not an array, folded to
`[]` by the `Array.isArray` test). -/
structure ParsedGloss where
  ja : Option String
  glossary : Option (List GlossEntry)
deriving Repr, DecidableEq

/-- Result shape of the reverse (English-to-Japanese) generation call. -/
structure GlossResult where
  ja : String
  glossary : List GlossEntry
deriving Repr, DecidableEq

/-- One call to the generation backend, recording the data the handler
put into the prompt. A `forward` call records the source text, the
tone-override argument and the effective tone
`toneOverride || user.tone_default` computed by
`generateEnglishFromJapanese` (`src/index.js` line 1871). -/
inductive GenCall where
  | forward (sourceText : String) (toneOverride : Option String) (tone : String)
  | reverse (sourceText : String)
  | lesson (en : String)
  | easySetup
deriving Repr, DecidableEq

/-- The external collaborators: the OpenAI chat-completion backend
(`complete`, returning the reply content, with `error` modelling a thrown
request failure; a null content is modelled as `""` exactly as
`content || ''` folds it), the candidate generation of the easy-setup
screen (`easy`, its JSON parsing and hand-written fallback folded in, as
no claim depends on them), and the JS `JSON.parse` builtin (`jsonParse`,
`none` modelling a parse exception). -/
structure Backend where
  complete : GenCall → Except Unit String
  easy : Except Unit (List String)
  jsonParse : String → Option ParsedGloss

/-- One quick-reply option of an outbound LINE message. -/
structure QuickOption where
  label : String
  text : String
deriving Repr, DecidableEq

/-- One outbound LINE message: a text body plus an optional quick-reply
option list. -/
structure OutMessage where
  text : String
  quickReply : Option (List QuickOption)
deriving Repr, DecidableEq

/-- Everything one handled event produces: the profile as stored after
the turn, the outbound messages in send order, and the generation-backend
calls made, in order. -/
structure TurnResult where
  profile : UserProfile
  messages : List OutMessage
  genCalls : List GenCall
deriving Repr

/-! ## Generation-call wrappers (`src/index.js` lines 1857-1970) -/

/-- Forward generation (`generateEnglishFromJapanese`, `src/index.js`
lines 1857-1902): computes the effective tone
`toneOverride || user.tone_default`, calls the backend and trims the
reply content. Returns the content together with the call made. -/
def generateEnglishFromJapanese (B : Backend) (user : UserProfile)
    (sourceText : String) (toneOverride : Option String) :
    Except Unit (String × GenCall) :=
  let tone := jsOr toneOverride user.tone_default
  let call := GenCall.forward sourceText toneOverride tone
  match B.complete call with
  | .error e => .error e
  | .ok raw => .ok (strTrim raw, call)

/-- Drop the opening code fence matched by the regex `/^```[a-zA-Z]*\n?/`
(`src/index.js` lines 683-684 and 1951-1952): three backticks, any ASCII
letters, then at most one newline. -/
def stripFenceHeader (l : List Char) : List Char :=
  let l2 := (l.drop 3).dropWhile isLatinChar
  match l2 with
  | '\n' :: rest => rest
  | _ => l2

/-- Drop a closing code fence matched by `/```$/`: three final
backticks. -/
def stripFenceTail (l : List Char) : List Char :=
  if chPre ['`', '`', '`'] l.reverse then l.take (l.length - 3) else l

/-- Fence stripping applied to the raw backend content before JSON
parsing (`src/index.js` lines 682-685 and 1950-1953): trim, and when the
text starts with three backticks, strip the fence header and tail and
trim again. -/
def stripCodeFence (raw : String) : String :=
  let t := jsTrim raw.data
  if chPre ['`', '`', '`'] t then
    String.mk (jsTrim (stripFenceTail (stripFenceHeader t)))
  else
    String.mk t

/-- Reverse generation (`explainEnglishToJapaneseWithGlossary`,
`src/index.js` lines 619-702 and 1904-1970): calls the backend, strips
code fences from the content, attempts `JSON.parse`, and on parse failure
returns the raw (stripped) text as the translation with an empty
glossary instead of raising. Returns the result with the call made. -/
def explainEnglishToJapaneseWithGlossary (B : Backend) (sourceText : String) :
    Except Unit (GlossResult × GenCall) :=
  let call := GenCall.reverse sourceText
  match B.complete call with
  | .error e => .error e
  | .ok content =>
    let raw := stripCodeFence content
    match B.jsonParse raw with
    | none => .ok ({ ja := raw, glossary := [] }, call)
    | some parsed =>
      .ok ({ ja := jsOr parsed.ja "", glossary := parsed.glossary.getD [] }, call)

/-! ## Quick replies and display labels of the final revision
(`src/index.js` lines 1722-1853) -/

/-- Basic navigation quick replies (`baseQuickReplyItems`,
`src/index.js` lines 1723-1738). -/
def baseQuickReplyItems : List QuickOption :=
  [⟨"🏠 ホーム", "ホーム"⟩, ⟨"⚙️ 設定", "設定"⟩, ⟨"❓ 使い方", "使い方"⟩]

/-- Tone menu shown after a generated English text
(`toneQuickReplyItems`, `src/index.js` lines 1741-1761). -/
def toneQuickReplyItems : List QuickOption :=
  [⟨"カジュアルに", "トーン:カジュアル"⟩, ⟨"丁寧に", "トーン:丁寧"⟩,
   ⟨"ビジネスに", "トーン:ビジネス"⟩, ⟨"この英文でOK", "この英文でOK"⟩] ++
  baseQuickReplyItems

/-- Home-screen quick replies (`homeQuickReplyItems`,
`src/index.js` lines 1764-1775). -/
def homeQuickReplyItems : List QuickOption :=
  [⟨"⚙️ 設定", "設定"⟩, ⟨"❓ 使い方", "使い方"⟩]

/-- Settings-screen quick replies (`settingsQuickReplyItems`,
`src/index.js` lines 1778-1798). -/
def settingsQuickReplyItems : List QuickOption :=
  [⟨"レベル", "[設定] レベル"⟩, ⟨"用途", "[設定] 用途"⟩,
   ⟨"文体", "[設定] 文体"⟩, ⟨"🧩 かんたん設定", "[設定] かんたん設定"⟩] ++
  baseQuickReplyItems

/-- Display label of the usage scene (`usageSceneLabel`,
`src/index.js` lines 1802-1813). -/
def usageSceneLabel (usage_default : String) : String :=
  if usage_default = "CHAT_FRIEND" then "友だち・同僚とのチャット"
  else if usage_default = "MAIL_INTERNAL" then "社内メール"
  else if usage_default = "MAIL_EXTERNAL" then "社外メール"
  else "友だち・同僚とのチャット"

/-- Display label of the tone (`toneLabel`, `src/index.js`
lines 1815-1824). -/
def toneLabel (tone_default : String) : String :=
  if tone_default = "casual" then "カジュアル"
  else if tone_default = "business" then "ビジネス"
  else "丁寧"

/-- Display label of the English style (`englishStyleLabel`,
`src/index.js` lines 1826-1835). -/
def englishStyleLabel (style : String) : String :=
  if style = "american" then "アメリカ寄り"
  else if style = "british" then "イギリス寄り"
  else "日本人向け（無難）"

/-- Display label of the level (`levelLabel`, `src/index.js`
lines 1837-1850). -/
def levelLabel (user : UserProfile) : String :=
  if user.level_type = "eiken" then
    let v := asciiLower (jsOr (some user.level_value) "")
    if v = "pre2" then "準2級"
    else if v = "pre1" then "準1級"
    else v ++ "級"
  else if user.level_type = "toeic" then
    "TOEIC " ++ user.level_value
  else
    "ざっくりレベル" ++ user.level_value

/-- Sample Japanese sentence shared by the settings screens
(`SAMPLE_JA`, `src/index.js` line 1853). -/
def SAMPLE_JA : String := "明日のミーティングをリスケしたいです。"

/-! ## Handlers of the final revision (`src/index.js` lines 2037-2819) -/

/-- Help reply (`replyHelp`, `src/index.js` lines 2147-2160). No backend
call, no profile change. -/
def replyHelp (user : UserProfile) : TurnResult where
  profile := user
  messages :=
    [⟨"YourTranslator です 👋\n\n" ++
      "・日本語で送る → 英文を作成\n" ++
      "・英語で送る → 和訳＋むずかしめ単語のミニ解説\n" ++
      "・日本語＋英語まじり → 英訳 / 和訳を選択\n\n" ++
      "迷ったら「ホーム」から設定を見直せます。\n" ++
      "困ったらまた「ヘルプ」と送ってください。",
      some baseQuickReplyItems⟩]
  genCalls := []

/-- Home reply (`replyHome`, `src/index.js` lines 2162-2179). -/
def replyHome (user : UserProfile) : TurnResult where
  profile := user
  messages :=
    [⟨"YourTranslator ホーム 🏠\n\n" ++
      "いまの設定はこんな感じです：\n" ++
      "・レベル: " ++ levelLabel user ++ "\n" ++
      "・よく使う場面: " ++ usageSceneLabel user.usage_default ++ "\n" ++
      "・英語の雰囲気: " ++ englishStyleLabel user.english_style ++ "\n" ++
      "・デフォルト文体: " ++ toneLabel user.tone_default ++ "\n\n" ++
      "英語の雰囲気がよく分からない場合は、\n" ++
      "「⚙️ 設定」→「🧩 かんたん設定」からまとめて決めるのがおすすめです。",
      some homeQuickReplyItems⟩]
  genCalls := []

/-- Usage-guide reply (`replyUsage`, `src/index.js` lines 2181-2201). -/
def replyUsage (user : UserProfile) : TurnResult where
  profile := user
  messages :=
    [⟨"YourTranslator の使い方（ざっくり）📘\n\n" ++
      "1. 「ホーム」→「設定」で、\n" ++
      "   レベル・用途（チャット/社内/社外）・文体を決める\n" ++
      "2. あとは日本語 or 英語の文を送るだけ\n" ++
      "   ・日本語 → 英文を作成\n" ++
      "   ・英語 → 和訳＋むずかしめ単語のミニ解説\n" ++
      "3. 英文が出たら、クイックメニューで\n" ++
      "   ・カジュアル / 丁寧 / ビジネス に言い換え\n" ++
      "   ・「この英文でOK」で、本文だけ＋ワンポイントレッスン\n\n" ++
      "むずかしく考えず、「送りたい日本語」をそのまま投げて大丈夫です。",
      some baseQuickReplyItems⟩]
  genCalls := []

/-- Settings screen (`replySettings`, `src/index.js` lines 2204-2242):
tries one forward generation of the sample sentence for illustration; a
failure is caught and only changes the text. No profile change. -/
def replySettings (B : Backend) (user : UserProfile) : TurnResult :=
  let call := GenCall.forward SAMPLE_JA none (jsOr none user.tone_default)
  let exampleEn := match B.complete call with
    | .error _ => ""
    | .ok raw => strTrim raw
  let base :=
    "⚙️ 設定メニュー\n\n" ++
    "どれがいいかよく分からない場合は、\n" ++
    "「🧩 かんたん設定」でまとめて設定するのがおすすめです。\n\n" ++
    "【いまの設定】\n" ++
    "・レベル: " ++ levelLabel user ++ "\n" ++
    "・用途: " ++ usageSceneLabel user.usage_default ++ "\n" ++
    "・文体: " ++ toneLabel user.tone_default ++ "\n\n"
  let text :=
    if exampleEn ≠ "" then
      base ++ "この設定だと、たとえば次の日本語はこんな英文になります：\n\n" ++
      "日本語：" ++ SAMPLE_JA ++ "\n" ++ "英語：" ++ exampleEn
    else
      base ++ "この設定に合わせて英文を作ります。日本語を送って試してみてください。"
  { profile := user
    messages := [⟨text, some settingsQuickReplyItems⟩]
    genCalls := [call] }

/-- Level-root menu (`replyLevelRoot`, `src/index.js` lines 2246-2281). -/
def replyLevelRoot (user : UserProfile) : TurnResult where
  profile := user
  messages :=
    [⟨"レベルの決め方を選んでください。\n\n" ++
      "レベル選びがよく分からない場合は、\n" ++
      "かんたんに決められる「🧩 かんたん設定」から、\n" ++
      "欲しい英文の雰囲気で選ぶ方法もあります。",
      some ([⟨"英検で設定", "[設定] 英検レベル"⟩,
             ⟨"TOEIC（準備中）", "TOEIC設定は準備中です"⟩,
             ⟨"ざっくり（準備中）", "ざっくりレベル設定は準備中です"⟩] ++
            baseQuickReplyItems)⟩]
  genCalls := []

/-- Eiken level menu (`replyLevelEiken`, `src/index.js`
lines 2283-2325). -/
def replyLevelEiken (user : UserProfile) : TurnResult where
  profile := user
  messages :=
    [⟨"英検の級を選んでください。\n\n" ++
      "どの級がよいか迷うときは、\n" ++
      "いったん感覚で選んでから、実際に英文を出して様子を見る感じでOKです。",
      some ([⟨"5級", "SET_LEVEL_EIKEN_5"⟩, ⟨"4級", "SET_LEVEL_EIKEN_4"⟩,
             ⟨"3級", "SET_LEVEL_EIKEN_3"⟩, ⟨"準2級", "SET_LEVEL_EIKEN_PRE2"⟩,
             ⟨"2級", "SET_LEVEL_EIKEN_2"⟩, ⟨"準1級", "SET_LEVEL_EIKEN_PRE1"⟩,
             ⟨"1級", "SET_LEVEL_EIKEN_1"⟩] ++ baseQuickReplyItems)⟩]
  genCalls := []

/-- Eiken level setter (`handleSetLevelEiken`, `src/index.js`
lines 2327-2365): stores the lowered level code, then tries an example
generation with the updated profile (failure caught). -/
def handleSetLevelEiken (B : Backend) (user : UserProfile) (text : String) : TurnResult :=
  let code := String.mk (replOnce "SET_LEVEL_EIKEN_".data text.data)
  let value := asciiLower code
  let updated := { user with level_type := "eiken", level_value := value }
  let call := GenCall.forward SAMPLE_JA none (jsOr none updated.tone_default)
  let exampleEn := match B.complete call with
    | .error _ => ""
    | .ok raw => strTrim raw
  let textBody :=
    "レベルを「英検" ++ levelLabel updated ++ "」のイメージで登録しました。\n" ++
    "同じ日本語でも、このくらいの雰囲気の英文になります。\n\n" ++
    "日本語：" ++ SAMPLE_JA ++ "\n" ++
    (if exampleEn ≠ "" then "英語：" ++ exampleEn ++ "\n\n" else "") ++
    "日本語か英語で文を送って、実際の出方を試してみてください。"
  { profile := updated
    messages := [⟨textBody, some baseQuickReplyItems⟩]
    genCalls := [call] }

/-- Usage-scene menu (`replyUsageScene`, `src/index.js`
lines 2369-2404). -/
def replyUsageScene (user : UserProfile) : TurnResult where
  profile := user
  messages :=
    [⟨"よく使う場面を選んでください。",
      some ([⟨"友だち・同僚チャット", "SET_USAGE_CHAT_FRIEND"⟩,
             ⟨"社内メール", "SET_USAGE_MAIL_INTERNAL"⟩,
             ⟨"社外メール", "SET_USAGE_MAIL_EXTERNAL"⟩] ++ baseQuickReplyItems)⟩]
  genCalls := []

/-- Usage-scene setter (`handleSetUsageScene`, `src/index.js`
lines 2406-2421). -/
def handleSetUsageScene (user : UserProfile) (text : String) : TurnResult :=
  let usage :=
    if text = "SET_USAGE_MAIL_INTERNAL" then "MAIL_INTERNAL"
    else if text = "SET_USAGE_MAIL_EXTERNAL" then "MAIL_EXTERNAL"
    else "CHAT_FRIEND"
  let updated := { user with usage_default := usage }
  { profile := updated
    messages :=
      [⟨"よく使う場面を「" ++ usageSceneLabel updated.usage_default ++
        "」として登録しました。", some baseQuickReplyItems⟩]
    genCalls := [] }

/-- Tone-default menu (`replyToneSetting`, `src/index.js`
lines 2425-2448). -/
def replyToneSetting (user : UserProfile) : TurnResult where
  profile := user
  messages :=
    [⟨"ふだんの文体を選んでください。",
      some ([⟨"カジュアル", "SET_TONE_CASUAL"⟩, ⟨"丁寧", "SET_TONE_POLITE"⟩,
             ⟨"ビジネス", "SET_TONE_BUSINESS"⟩] ++ baseQuickReplyItems)⟩]
  genCalls := []

/-- Tone-default setter (`handleSetTone`, `src/index.js`
lines 2450-2465). -/
def handleSetTone (user : UserProfile) (text : String) : TurnResult :=
  let tone :=
    if text = "SET_TONE_CASUAL" then "casual"
    else if text = "SET_TONE_BUSINESS" then "business"
    else "polite"
  let updated := { user with tone_default := tone }
  { profile := updated
    messages :=
      [⟨"デフォルト文体を「" ++ toneLabel updated.tone_default ++ "」にしました。",
        some baseQuickReplyItems⟩]
    genCalls := [] }

/-- English-style menu (`replyEnglishStyle`, `src/index.js`
lines 2469-2507). -/
def replyEnglishStyle (user : UserProfile) : TurnResult where
  profile := user
  messages :=
    [⟨"英語の雰囲気を選んでください。\n\n" ++
      "迷ったら「日本人向け（無難）」でOKです。\n" ++
      "アメリカ寄り / イギリス寄りは、ニュアンスの違いを少し大事にしたい人向けです。",
      some ([⟨"日本人向け（無難）", "SET_EN_STYLE_NEUTRAL"⟩,
             ⟨"アメリカ寄り", "SET_EN_STYLE_AMERICAN"⟩,
             ⟨"イギリス寄り", "SET_EN_STYLE_BRITISH"⟩] ++ baseQuickReplyItems)⟩]
  genCalls := []

/-- English-style setter (`handleSetEnglishStyle`, `src/index.js`
lines 2509-2524). -/
def handleSetEnglishStyle (user : UserProfile) (text : String) : TurnResult :=
  let style :=
    if text = "SET_EN_STYLE_AMERICAN" then "american"
    else if text = "SET_EN_STYLE_BRITISH" then "british"
    else "neutral"
  let updated := { user with english_style := style }
  { profile := updated
    messages :=
      [⟨"英語の雰囲気を「" ++ englishStyleLabel updated.english_style ++ "」にしました。",
        some baseQuickReplyItems⟩]
    genCalls := [] }

/-- Easy-setup screen (`replyEasySetup`, `src/index.js` lines 2528-2568):
shows four candidate renderings of the sample sentence. The candidate
generation (`generateEasySetupCandidates`) makes one backend call whose
request failure propagates out of the handler. -/
def replyEasySetup (B : Backend) (user : UserProfile) : Except Unit TurnResult :=
  match B.easy with
  | .error e => .error e
  | .ok candidates =>
    let text :=
      "🧩 かんたん設定\n\n" ++
      "同じ日本語を、4パターンの英語にしてみました。\n" ++
      "「自分だったらこの日本語こう書くな」と思う番号を選んでください。\n\n" ++
      "日本語：" ++ SAMPLE_JA ++ "\n\n" ++
      "① " ++ candidates.getD 0 "" ++ "\n" ++
      "② " ++ candidates.getD 1 "" ++ "\n" ++
      "③ " ++ candidates.getD 2 "" ++ "\n" ++
      "④ " ++ candidates.getD 3 "" ++ "\n"
    .ok { profile := user
          messages :=
            [⟨text, some ([⟨"① を選ぶ", "SET_EASY_PROFILE_1"⟩,
                           ⟨"② を選ぶ", "SET_EASY_PROFILE_2"⟩,
                           ⟨"③ を選ぶ", "SET_EASY_PROFILE_3"⟩,
                           ⟨"④ を選ぶ", "SET_EASY_PROFILE_4"⟩] ++
                          baseQuickReplyItems)⟩]
          genCalls := [GenCall.easySetup] }

/-- Easy-setup selection (`handleEasyProfileSelect`, `src/index.js`
lines 2570-2623): stores a rough level, a usage scene and a tone
together. -/
def handleEasyProfileSelect (user : UserProfile) (text : String) : TurnResult :=
  let profileNum : Nat :=
    if text = "SET_EASY_PROFILE_2" then 2
    else if text = "SET_EASY_PROFILE_3" then 3
    else if text = "SET_EASY_PROFILE_4" then 4
    else 1
  let level_value := toString profileNum
  let usage :=
    if profileNum = 3 then "MAIL_INTERNAL"
    else if profileNum = 4 then "MAIL_EXTERNAL"
    else "CHAT_FRIEND"
  let tone :=
    if profileNum = 2 ∨ profileNum = 3 then "polite"
    else if profileNum = 4 then "business"
    else "casual"
  let updated :=
    { user with level_type := "rough", level_value := level_value,
                usage_default := usage, tone_default := tone }
  let profileLabel :=
    if profileNum = 2 then "チャット〜社内向け × 丁寧寄り"
    else if profileNum = 3 then "社内メール × 丁寧"
    else if profileNum = 4 then "社外メール × ビジネス"
    else "友だち・同僚チャット × カジュアル"
  { profile := updated
    messages :=
      [⟨"🧩 かんたん設定「" ++ profileLabel ++ "」を選びました。\n\n" ++
        "このイメージに合わせて英文を作ります。\n" ++
        "日本語か英語で文を送って、実際の出方を試してみてください。",
        some baseQuickReplyItems⟩]
    genCalls := [] }

/-- Tone resolution of the final revision's tone-change handler
(`src/index.js` lines 2636-2648): an `else if` chain of substring tests,
starting from the user's default tone, so the first matching keyword in
the order カジュアル, 丁寧, ビジネス wins. -/
def resolveToneOverrideFinal (tone_default : String) (toneLabelJa : String) : String :=
  if chSub "カジュアル".data toneLabelJa.data then "casual"
  else if chSub "丁寧".data toneLabelJa.data then "polite"
  else if chSub "ビジネス".data toneLabelJa.data then "business"
  else tone_default

/-- Comment chosen alongside the tone in the final revision's tone-change
handler (`src/index.js` lines 2636-2648); empty when no keyword
matched. -/
def toneChangeComment (toneLabelJa : String) : String :=
  if chSub "カジュアル".data toneLabelJa.data then "カジュアルな場面なら、このまま使えます。"
  else if chSub "丁寧".data toneLabelJa.data then "丁寧なやりとりなら、このまま使えます。"
  else if chSub "ビジネス".data toneLabelJa.data then "ビジネスでも、このまま使えます。"
  else ""

/-- Tone-change handler of the final revision (`handleToneChange`,
`src/index.js` lines 2627-2667): guards on a truthy `last_source_ja`,
resolves the label by substring containment through an `else if` chain,
regenerates from the stored `last_source_ja`, and stores the new
`last_output_en` / `last_mode`. -/
def handleToneChange (B : Backend) (user : UserProfile) (toneLabelJa : String) :
    Except Unit TurnResult :=
  if !(isTruthy user.last_source_ja) then
    .ok { profile := user
          messages :=
            [⟨"まず日本語の文を送って英文を作ってから、文体を変えてみてください。",
              some baseQuickReplyItems⟩]
          genCalls := [] }
  else
    let src := (user.last_source_ja).getD ""
    let toneOverride := resolveToneOverrideFinal user.tone_default toneLabelJa
    let comment := toneChangeComment toneLabelJa
    match generateEnglishFromJapanese B user src (some toneOverride) with
    | .error e => .error e
    | .ok (en, call) =>
      let updated := { user with last_output_en := some en, last_mode := some "JA_TO_EN" }
      .ok { profile := updated
            messages :=
              [⟨if comment = "" then en else en ++ "\n\n（" ++ comment ++ "）",
                some toneQuickReplyItems⟩]
            genCalls := [call] }

/-- Accept handler of the final revision (`handleAcceptCurrentEnglish`,
`src/index.js` lines 2671-2727): guards on a truthy `last_output_en`,
then sends the accepted English verbatim as a bare copy message followed
by a one-point lesson message; a lesson failure is caught and replaced by
a degraded second message. No profile change. -/
def handleAcceptCurrentEnglish (B : Backend) (user : UserProfile) : TurnResult :=
  match user.last_output_en with
  | none =>
    { profile := user
      messages :=
        [⟨"まず日本語の文を送って、英文を作ってから選んでください。",
          some baseQuickReplyItems⟩]
      genCalls := [] }
  | some en =>
    if en = "" then
      { profile := user
        messages :=
          [⟨"まず日本語の文を送って、英文を作ってから選んでください。",
            some baseQuickReplyItems⟩]
        genCalls := [] }
    else
      let copyMessage : OutMessage := ⟨en, none⟩
      let lessonText := match B.complete (GenCall.lesson en) with
        | .error _ => ""
        | .ok raw => strTrim raw
      let lessonMessage : OutMessage :=
        if lessonText ≠ "" then
          ⟨"ワンポイントレッスン\n------------------------------\n" ++ lessonText,
           some baseQuickReplyItems⟩
        else
          ⟨"コピペ用の英文をお届けしました。", some baseQuickReplyItems⟩
      { profile := user
        messages := [copyMessage, lessonMessage]
        genCalls := [GenCall.lesson en] }

/-- Forward handler of the final revision (`handleJaToEn`, `src/index.js`
lines 2731-2750): generates English with no tone override, stores
`last_source_ja`, `last_output_en` and `last_mode` together, and replies
with the artifact plus the tone menu. A generation failure propagates out
of the handler before any store write. -/
def handleJaToEn (B : Backend) (user : UserProfile) (text : String) :
    Except Unit TurnResult :=
  match generateEnglishFromJapanese B user text none with
  | .error e => .error e
  | .ok (en, call) =>
    let updated :=
      { user with last_source_ja := some text, last_output_en := some en,
                  last_mode := some "JA_TO_EN" }
    .ok { profile := updated
          messages := [⟨en, some toneQuickReplyItems⟩]
          genCalls := [call] }

/-- Reverse handler of the final revision (`handleEnToJa`, `src/index.js`
lines 2754-2785): translates with glossary, renders glossary lines
(entries with a falsy `term` are skipped; an empty `note_ja` drops the
note decoration), and stores `last_source_en`, `last_output_ja` and
`last_mode` together. -/
def handleEnToJa (B : Backend) (user : UserProfile) (text : String) :
    Except Unit TurnResult :=
  match explainEnglishToJapaneseWithGlossary B text with
  | .error e => .error e
  | .ok (res, call) =>
    let glossLines :=
      res.glossary.foldl (fun acc g =>
        if g.term = "" then acc
        else
          let meaning := g.meaning_ja
          let note := if g.note_ja = "" then "" else "（" ++ g.note_ja ++ "）"
          acc ++ "・" ++ g.term ++ ": " ++ meaning ++ note ++ "\n") ""
    let resultText :=
      if res.glossary ≠ [] then
        res.ja ++ "\n\n◆チェックしておきたい単語・表現\n" ++ glossLines
      else res.ja
    let updated :=
      { user with last_source_en := some text, last_output_ja := some res.ja,
                  last_mode := some "EN_TO_JA" }
    .ok { profile := updated
          messages := [⟨resultText, some baseQuickReplyItems⟩]
          genCalls := [call] }

/-- Mixed-input disambiguation (`handleMixed`, `src/index.js`
lines 2789-2819): no backend call; replies with two options whose
payloads embed the original text after a direction marker. -/
def handleMixed (user : UserProfile) (text : String) : TurnResult where
  profile := user
  messages :=
    [⟨"日本語と英語がいっしょに入っているみたいです。\n" ++
      "この文を「英訳」か「和訳」か、どちらで扱うか選んでください。",
      some ([⟨"英訳してほしい", "TRANSLATE_TO_EN:::" ++ text⟩,
             ⟨"和訳してほしい", "TRANSLATE_TO_JA:::" ++ text⟩] ++
            baseQuickReplyItems)⟩]
  genCalls := []

/-- The mutually exclusive outcomes of the dispatch chain of the final
revision's `handleEvent` (`src/index.js` lines 2048-2142), in source
order. -/
inductive Route where
  | translateToEn (original : String)
  | translateToJa (original : String)
  | help
  | home
  | usage
  | settings
  | levelRoot
  | levelEiken
  | setLevelEiken
  | usageScene
  | setUsage
  | toneSetting
  | setTone
  | englishStyle
  | setStyle
  | easySetup
  | easySelect
  | toneChange (label : String)
  | accept
  | detectedJa
  | detectedEn
  | detectedMixed
  | unsupported
deriving Repr, DecidableEq

/-- The dispatch chain of the final revision's `handleEvent`
(`src/index.js` lines 2048-2142) on the already-trimmed message text:
first the deferred-choice markers (stripping the marker from the payload
exactly as `text.replace(marker, lit)` does), then the fixed commands and
settings tokens, then the tone-change and accept commands, and finally
the fall back to language detection. First match wins. -/
def routeOf (text : String) : Route :=
  if chPre "TRANSLATE_TO_EN:::".data text.data then
    .translateToEn (String.mk (replOnce "TRANSLATE_TO_EN:::".data text.data))
  else if chPre "TRANSLATE_TO_JA:::".data text.data then
    .translateToJa (String.mk (replOnce "TRANSLATE_TO_JA:::".data text.data))
  else if text = "ヘルプ" then .help
  else if text = "ホーム" then .home
  else if text = "使い方" then .usage
  else if text = "設定" then .settings
  else if text = "[設定] レベル" then .levelRoot
  else if text = "[設定] 英検レベル" then .levelEiken
  else if chPre "SET_LEVEL_EIKEN_".data text.data then .setLevelEiken
  else if text = "[設定] 用途" then .usageScene
  else if chPre "SET_USAGE_".data text.data then .setUsage
  else if text = "[設定] 文体" then .toneSetting
  else if chPre "SET_TONE_".data text.data then .setTone
  else if text = "[設定] 英語タイプ" then .englishStyle
  else if chPre "SET_EN_STYLE_".data text.data then .setStyle
  else if text = "[設定] かんたん設定" then .easySetup
  else if chPre "SET_EASY_PROFILE_".data text.data then .easySelect
  else if chPre "トーン:".data text.data then
    .toneChange (String.mk (replOnce "トーン:".data text.data))
  else if chSub "この英文で".data text.data then .accept
  else
    if detectLanguage text = "ja" then .detectedJa
    else if detectLanguage text = "en" then .detectedEn
    else if detectLanguage text = "mixed" then .detectedMixed
    else .unsupported

/-- Event handling of the final revision (`handleEvent`, `src/index.js`
lines 2037-2143) on the already-trimmed message text: the handler chosen
by the dispatch chain runs against the current profile. The profile store
is modelled as reliable, so the only `error` outcomes are propagated
backend failures. -/
def runEventText (B : Backend) (user : UserProfile) (text : String) :
    Except Unit TurnResult :=
  match routeOf text with
  | .translateToEn original => handleJaToEn B user original
  | .translateToJa original => handleEnToJa B user original
  | .help => .ok (replyHelp user)
  | .home => .ok (replyHome user)
  | .usage => .ok (replyUsage user)
  | .settings => .ok (replySettings B user)
  | .levelRoot => .ok (replyLevelRoot user)
  | .levelEiken => .ok (replyLevelEiken user)
  | .setLevelEiken => .ok (handleSetLevelEiken B user text)
  | .usageScene => .ok (replyUsageScene user)
  | .setUsage => .ok (handleSetUsageScene user text)
  | .toneSetting => .ok (replyToneSetting user)
  | .setTone => .ok (handleSetTone user text)
  | .englishStyle => .ok (replyEnglishStyle user)
  | .setStyle => .ok (handleSetEnglishStyle user text)
  | .easySetup => replyEasySetup B user
  | .easySelect => .ok (handleEasyProfileSelect user text)
  | .toneChange label => handleToneChange B user label
  | .accept => .ok (handleAcceptCurrentEnglish B user)
  | .detectedJa => handleJaToEn B user text
  | .detectedEn => handleEnToJa B user text
  | .detectedMixed => .ok (handleMixed user text)
  | .unsupported =>
    .ok { profile := user
          messages :=
            [⟨"今は日本語と英語だけをサポートしています。\n日本語か英語で送ってみてください 😊",
              some baseQuickReplyItems⟩]
          genCalls := [] }

/-- Event dispatch applied to a raw inbound text-message event: the
source first trims the message text (`src/index.js` line 2045), then runs
the dispatch chain on the trimmed text. -/
def runEvent (B : Backend) (user : UserProfile) (rawText : String) :
    Except Unit TurnResult :=
  runEventText B user (strTrim rawText)

/-! ## Tone-change and accept handlers of the middle revision
(`src/index.js` lines 372-412 and 1409-1471; `src/unnamed/part_000`
lines 1212-1275 is the same logic) -/

/-- Settings quick-reply item of the middle revision
(`settingsQuickReplyItem`, `src/index.js` lines 372-377). -/
def settingsQuickReplyItem : QuickOption := ⟨"⚙ 設定", "ホーム"⟩

/-- Basic quick replies of the middle revision (`baseQuickReplyItems`,
`src/index.js` lines 380-389): the usage-guide item appears only when
`includeHelp` is set. -/
def baseQuickReplyItemsMid (includeHelp : Bool) : List QuickOption :=
  [settingsQuickReplyItem] ++ (if includeHelp then [⟨"❓ 使い方", "使い方"⟩] else [])

/-- Tone menu of the middle revision (`toneQuickReplyItems`,
`src/index.js` lines 392-412). -/
def toneQuickReplyItemsMid : List QuickOption :=
  [⟨"✨ この英文でOK", "この英文でOK"⟩, ⟨"😊 カジュアルに", "トーン:カジュアル"⟩,
   ⟨"🙂 丁寧に", "トーン:丁寧"⟩, ⟨"💼 ビジネスに", "トーン:ビジネス"⟩,
   settingsQuickReplyItem]

/-- Tone-label resolution of the middle revision (`src/index.js` lines
1418-1421, `src/unnamed/part_000` lines 1221-1224): starts from the
user's default tone and runs three independent substring tests, so the
last matching keyword in the order カジュアル, 丁寧, ビジネス wins. -/
def resolveToneOverride (tone_default : String) (toneLabelJa : String) : String :=
  let t0 := tone_default
  let t1 := if chSub "カジュアル".data toneLabelJa.data then "casual" else t0
  let t2 := if chSub "丁寧".data toneLabelJa.data then "polite" else t1
  if chSub "ビジネス".data toneLabelJa.data then "business" else t2

/-- Tone-change handler of the middle revision (`handleToneChange`,
`src/index.js` lines 1409-1440): guards on a truthy `last_source_ja`,
resolves the label with `resolveToneOverride`, regenerates from the
stored `last_source_ja` and stores the new `last_output_en` /
`last_mode`. -/
def handleToneChangeMid (B : Backend) (user : UserProfile) (toneLabelJa : String) :
    Except Unit TurnResult :=
  if !(isTruthy user.last_source_ja) then
    .ok { profile := user
          messages :=
            [⟨"まず日本語の文を送って英文を作ってから、文体を変えてみてください。",
              some (baseQuickReplyItemsMid false)⟩]
          genCalls := [] }
  else
    let src := (user.last_source_ja).getD ""
    let toneOverride := resolveToneOverride user.tone_default toneLabelJa
    match generateEnglishFromJapanese B user src (some toneOverride) with
    | .error e => .error e
    | .ok (en, call) =>
      let updated := { user with last_output_en := some en, last_mode := some "JA_TO_EN" }
      .ok { profile := updated
            messages := [⟨jsOr updated.last_output_en en, some toneQuickReplyItemsMid⟩]
            genCalls := [call] }

/-- Accept handler of the middle revision (`handleAcceptCurrentEnglish`,
`src/index.js` lines 1444-1471): guards on a truthy `last_output_en`;
sends a single message with the lesson, or a degraded text when the
lesson call failed or came back empty. No profile change. -/
def handleAcceptCurrentEnglishMid (B : Backend) (user : UserProfile) : TurnResult :=
  if !(isTruthy user.last_output_en) then
    { profile := user
      messages :=
        [⟨"まず日本語の文を送って、英文を作ってから選んでください。",
          some (baseQuickReplyItemsMid false)⟩]
      genCalls := [] }
  else
    let en := (user.last_output_en).getD ""
    let lessonText := match B.complete (GenCall.lesson en) with
      | .error _ => ""
      | .ok raw => strTrim raw
    { profile := user
      messages :=
        [⟨if lessonText ≠ "" then
            "✨ よりネイティブに近づけた表現なら、たとえば\n------------------------------\n" ++
            lessonText
          else
            "ネイティブ寄りの別案の生成に失敗しましたが、英文自体はそのまま使って大丈夫です。",
          some (baseQuickReplyItemsMid false)⟩]
      genCalls := [GenCall.lesson en] }

/-! ## The per-user state machine

One inbound text event together with that turn's backend behaviour;
`runProfile` folds a conversation over a profile, a failed turn leaving
the stored profile untouched (every store write in the source happens
after the generation call that could throw). -/

/-- One inbound text event with the backend behaviour of that turn. -/
structure Event where
  text : String
  backend : Backend

/-- The stored profile after one event: the handler's result profile, or
the unchanged profile when the turn failed. -/
def stepProfile (user : UserProfile) (e : Event) : UserProfile :=
  match runEvent e.backend user e.text with
  | .ok r => r.profile
  | .error _ => user

/-- The stored profile after a list of events, oldest first. -/
def runProfile (user : UserProfile) : List Event → UserProfile
  | [] => user
  | e :: es => runProfile (stepProfile user e) es

/-! ## Concrete backend and profile instances for instantiating the
theorems on closed conversations -/

/-- A backend whose every call succeeds with a fixed reply. -/
def okBackend : Backend where
  complete := fun _ => .ok "Hello."
  easy := .ok ["a", "b", "c", "d"]
  jsonParse := fun _ => none

/-- A backend whose every call fails (a generation outage). -/
def failBackend : Backend where
  complete := fun _ => .error ()
  easy := .error ()
  jsonParse := fun _ => none

/-- A backend whose replies are fenced non-JSON text. -/
def fencedBackend : Backend where
  complete := fun _ => .ok "```json\nhello world\n```"
  easy := .ok ["a", "b", "c", "d"]
  jsonParse := fun _ => none

/-- A profile that already holds one successful forward turn. -/
def userWithTurn : UserProfile :=
  { freshUserProfile "U1" with
      last_source_ja := some "明日の会議をリスケしたいです。"
      last_output_en := some "Sounds good."
      last_mode := some "JA_TO_EN" }

/-! ## Helper lemmas about the string model -/

theorem chPre_append (p t : List Char) : chPre p (p ++ t) = true := by
  induction p with
  | nil => rfl
  | cons c cs ih => simp [chPre, ih]

theorem replOnce_append (p t : List Char) : replOnce p (p ++ t) = t := by
  cases p with
  | nil =>
    cases t with
    | nil => rfl
    | cons c cs => simp [replOnce, chPre]
  | cons c cs =>
    have h := chPre_append (c :: cs) t
    simp only [List.cons_append] at h ⊢
    simp only [replOnce, h, if_true]
    simp [List.drop_left (c :: cs) t]

theorem length_dropWhile_le (p : Char → Bool) (l : List Char) :
    (l.dropWhile p).length ≤ l.length := by
  induction l with
  | nil => simp
  | cons c cs ih =>
    rw [List.dropWhile_cons]
    split
    · exact le_trans ih (Nat.le_succ _)
    · exact le_refl _

theorem dropWhile_length_eq (p : Char → Bool) (l : List Char)
    (h : (l.dropWhile p).length = l.length) : l.dropWhile p = l := by
  induction l with
  | nil => simp
  | cons c cs ih =>
    rw [List.dropWhile_cons] at h ⊢
    by_cases hc : p c = true
    · rw [if_pos hc] at h
      have := length_dropWhile_le p cs
      simp only [List.length_cons] at h
      omega
    · simp [hc]

theorem head_not_of_dropWhile_eq (p : Char → Bool) (c : Char) (cs : List Char)
    (h : (c :: cs).dropWhile p = c :: cs) : p c = false := by
  by_contra hcc
  have hc : p c = true := by
    cases hb : p c with
    | false => exact absurd hb hcc
    | true => rfl
  rw [List.dropWhile_cons, if_pos hc] at h
  have hlen := length_dropWhile_le p cs
  have := congrArg List.length h
  simp only [List.length_cons] at this
  omega

theorem jsTrim_parts (l : List Char) (h : jsTrim l = l) :
    l.dropWhile isWs = l ∧ l.reverse.dropWhile isWs = l.reverse := by
  have e := congrArg List.length h
  simp only [jsTrim, List.length_reverse] at e
  have a := length_dropWhile_le isWs l
  have b := length_dropWhile_le isWs ((l.dropWhile isWs).reverse)
  rw [List.length_reverse] at b
  have h1 : (l.dropWhile isWs).length = l.length := by omega
  have hd1 : l.dropWhile isWs = l := dropWhile_length_eq _ _ h1
  have hd2 : l.reverse.dropWhile isWs = l.reverse := by
    have hrev : (l.reverse.dropWhile isWs).reverse = l := by
      have h' := h
      rw [jsTrim, hd1] at h'
      exact h'
    have h2 := congrArg List.reverse hrev
    rw [List.reverse_reverse] at h2
    exact h2
  exact ⟨hd1, hd2⟩

theorem jsTrim_of_parts (l : List Char)
    (h1 : l.dropWhile isWs = l) (h2 : l.reverse.dropWhile isWs = l.reverse) :
    jsTrim l = l := by
  rw [jsTrim, h1, h2, List.reverse_reverse]

theorem jsTrim_append_solid (m t : List Char)
    (hm1 : m.dropWhile isWs = m) (hm2 : m.reverse.dropWhile isWs = m.reverse)
    (hmne : m ≠ []) (ht : jsTrim t = t) :
    jsTrim (m ++ t) = m ++ t := by
  obtain ⟨ht1, ht2⟩ := jsTrim_parts t ht
  have front : (m ++ t).dropWhile isWs = m ++ t := by
    cases m with
    | nil => exact absurd rfl hmne
    | cons c cs =>
      have hc := head_not_of_dropWhile_eq isWs c cs hm1
      simp [List.dropWhile_cons, hc]
  have rear : (m ++ t).reverse.dropWhile isWs = (m ++ t).reverse := by
    rw [List.reverse_append]
    cases htr : t.reverse with
    | nil =>
      simp only [List.nil_append]
      exact hm2
    | cons d ds =>
      rw [htr] at ht2
      have hd := head_not_of_dropWhile_eq isWs d ds ht2
      simp [List.dropWhile_cons, hd]
  exact jsTrim_of_parts _ front rear

theorem strMk_data (s : String) : String.mk s.data = s := by
  cases s
  rfl

theorem jsTrim_append_newline (b : List Char) (hb : jsTrim b = b) :
    jsTrim (b ++ ['\n']) = b := by
  cases b with
  | nil => rfl
  | cons c cs =>
    obtain ⟨h1, h2⟩ := jsTrim_parts _ hb
    have hc := head_not_of_dropWhile_eq isWs c cs h1
    rw [jsTrim]
    rw [List.cons_append, List.dropWhile_cons, hc]
    rw [if_neg (by simp)]
    have hrev : ((c :: cs) ++ ['\n']).reverse = '\n' :: (c :: cs).reverse := by
      simp
    rw [← List.cons_append, hrev]
    rw [List.dropWhile_cons]
    have hnl : isWs '\n' = true := rfl
    rw [hnl, if_pos rfl]
    rw [h2, List.reverse_reverse]

theorem stripCodeFence_fenced (b : String) (hb : jsTrim b.data = b.data) :
    stripCodeFence ("```json\n" ++ b ++ "\n```") = b := by
  by_cases hbe : b.data = []
  · have hbempty : b = "" := by
      have := congrArg String.mk hbe
      rw [strMk_data] at this
      exact this
    rw [hbempty]
    decide
  · have hF : "```json\n".data = ['`', '`', '`', 'j', 's', 'o', 'n', '\n'] := rfl
    have hT : "\n```".data = ['\n', '`', '`', '`'] := rfl
    obtain ⟨hb1, hb2⟩ := jsTrim_parts _ hb
    have hdata : ("```json\n" ++ b ++ "\n```").data =
        '`' :: '`' :: '`' :: 'j' :: 's' :: 'o' :: 'n' :: '\n' :: (b.data ++ ['\n', '`', '`', '`']) := by
      rw [String.data_append, String.data_append, hF, hT]
      simp
    have hbq : isWs '`' = false := rfl
    -- the trimmed text is the whole string
    have htrim : jsTrim (("```json\n" ++ b ++ "\n```").data) = ("```json\n" ++ b ++ "\n```").data := by
      rw [hdata]
      apply jsTrim_of_parts
      · rw [List.dropWhile_cons, hbq]
        simp
      · have hrev : ('`' :: '`' :: '`' :: 'j' :: 's' :: 'o' :: 'n' :: '\n' ::
            (b.data ++ ['\n', '`', '`', '`'])).reverse =
            '`' :: '`' :: '`' :: '\n' :: (b.data.reverse ++ ['\n', 'n', 'o', 's', 'j', '`', '`', '`']) := by
          simp
        rw [hrev, List.dropWhile_cons, hbq]
        simp
    rw [stripCodeFence, htrim, hdata]
    have hpre : chPre ['`', '`', '`']
        ('`' :: '`' :: '`' :: 'j' :: 's' :: 'o' :: 'n' :: '\n' ::
          (b.data ++ ['\n', '`', '`', '`'])) = true := by
      simp [chPre]
    rw [if_pos hpre]
    have hheader : stripFenceHeader
        ('`' :: '`' :: '`' :: 'j' :: 's' :: 'o' :: 'n' :: '\n' ::
          (b.data ++ ['\n', '`', '`', '`'])) = b.data ++ ['\n', '`', '`', '`'] := by
      rw [stripFenceHeader]
      simp [List.dropWhile_cons, isLatinChar]
    rw [hheader]
    have htail : stripFenceTail (b.data ++ ['\n', '`', '`', '`']) = b.data ++ ['\n'] := by
      rw [stripFenceTail]
      have hrev2 : (b.data ++ ['\n', '`', '`', '`']).reverse =
          '`' :: '`' :: '`' :: '\n' :: b.data.reverse := by
        simp
      rw [hrev2]
      have hpre2 : chPre ['`', '`', '`'] ('`' :: '`' :: '`' :: '\n' :: b.data.reverse) = true := by
        simp [chPre]
      rw [if_pos hpre2]
      have hlen : (b.data ++ ['\n', '`', '`', '`']).length = b.data.length + 4 := by
        simp
      rw [hlen]
      have : b.data.length + 4 - 3 = b.data.length + 1 := by omega
      rw [this, List.take_append_eq_append_take]
      simp
    rw [htail, jsTrim_append_newline _ hb, strMk_data]

/-! ## Profile-effect lemmas for the handlers of the final revision -/

theorem isTruthy_ne_none (o : Option String) (h : isTruthy o = true) : o ≠ none := by
  cases o with
  | none => simp [isTruthy] at h
  | some s => simp

theorem handleJaToEn_last_source (B : Backend) (u : UserProfile) (t : String)
    (r : TurnResult) (h : handleJaToEn B u t = .ok r) :
    r.profile.last_source_ja = some t := by
  unfold handleJaToEn at h
  split at h
  · simp at h
  · cases h
    rfl

theorem handleEnToJa_last_fields (B : Backend) (u : UserProfile) (t : String)
    (r : TurnResult) (h : handleEnToJa B u t = .ok r) :
    r.profile.last_source_ja = u.last_source_ja ∧
    r.profile.last_output_en = u.last_output_en := by
  unfold handleEnToJa at h
  split at h
  · simp at h
  · cases h
    exact ⟨rfl, rfl⟩

theorem handleToneChange_inv (B : Backend) (u : UserProfile) (lab : String)
    (r : TurnResult) (h : handleToneChange B u lab = .ok r)
    (hu : u.last_output_en ≠ none → u.last_source_ja ≠ none) :
    r.profile.last_output_en ≠ none → r.profile.last_source_ja ≠ none := by
  unfold handleToneChange at h
  split at h
  · cases h
    exact hu
  · rename_i hg
    have hg' : isTruthy u.last_source_ja = true := by
      simpa using hg
    cases hgen : generateEnglishFromJapanese B u (u.last_source_ja.getD "")
        (some (resolveToneOverrideFinal u.tone_default lab)) with
    | error e =>
      simp only [hgen] at h
      simp at h
    | ok p =>
      obtain ⟨en, call⟩ := p
      simp only [hgen, Except.ok.injEq] at h
      subst h
      intro _
      exact isTruthy_ne_none _ hg'

theorem handleAcceptCurrentEnglish_profile (B : Backend) (u : UserProfile) :
    (handleAcceptCurrentEnglish B u).profile = u := by
  unfold handleAcceptCurrentEnglish
  split
  · rfl
  · split
    · rfl
    · rfl

theorem replyEasySetup_profile (B : Backend) (u : UserProfile)
    (r : TurnResult) (h : replyEasySetup B u = .ok r) : r.profile = u := by
  unfold replyEasySetup at h
  split at h
  · simp at h
  · cases h
    rfl

set_option maxHeartbeats 1000000 in
/-- Every dispatch outcome preserves the pairing of
`last_source_ja` / `last_output_en`. -/
theorem runEventText_inv (B : Backend) (u : UserProfile) (text : String)
    (r : TurnResult) (hr : runEventText B u text = .ok r)
    (hu : u.last_output_en ≠ none → u.last_source_ja ≠ none) :
    r.profile.last_output_en ≠ none → r.profile.last_source_ja ≠ none := by
  unfold runEventText at hr
  cases hroute : routeOf text with
  | translateToEn original =>
    rw [hroute] at hr
    simp only [] at hr
    intro _
    rw [handleJaToEn_last_source _ _ _ _ hr]
    simp
  | translateToJa original =>
    rw [hroute] at hr
    simp only [] at hr
    obtain ⟨h1, h2⟩ := handleEnToJa_last_fields _ _ _ _ hr
    rw [h1, h2]
    exact hu
  | easySetup =>
    rw [hroute] at hr
    simp only [] at hr
    rw [replyEasySetup_profile _ _ _ hr]
    exact hu
  | toneChange label =>
    rw [hroute] at hr
    simp only [] at hr
    exact handleToneChange_inv _ _ _ _ hr hu
  | accept =>
    rw [hroute] at hr
    simp only [Except.ok.injEq] at hr
    subst hr
    rw [handleAcceptCurrentEnglish_profile]
    exact hu
  | detectedJa =>
    rw [hroute] at hr
    simp only [] at hr
    intro _
    rw [handleJaToEn_last_source _ _ _ _ hr]
    simp
  | detectedEn =>
    rw [hroute] at hr
    simp only [] at hr
    obtain ⟨h1, h2⟩ := handleEnToJa_last_fields _ _ _ _ hr
    rw [h1, h2]
    exact hu
  | _ =>
    rw [hroute] at hr
    simp only [Except.ok.injEq] at hr
    subst hr
    exact hu

/-- Every single handled event preserves the pairing of
`last_source_ja` / `last_output_en`. -/
theorem stepProfile_inv (e : Event) (u : UserProfile)
    (hu : u.last_output_en ≠ none → u.last_source_ja ≠ none) :
    (stepProfile u e).last_output_en ≠ none →
    (stepProfile u e).last_source_ja ≠ none := by
  unfold stepProfile runEvent
  cases hr : runEventText e.backend u (strTrim e.text) with
  | error _ => exact hu
  | ok r =>
    simp only [hr]
    exact runEventText_inv _ _ _ _ hr hu

/-- The pairing invariant holds after any event sequence, given it holds
initially. -/
theorem runProfile_inv (events : List Event) (p : UserProfile)
    (hp : p.last_output_en ≠ none → p.last_source_ja ≠ none) :
    (runProfile p events).last_output_en ≠ none →
    (runProfile p events).last_source_ja ≠ none := by
  induction events generalizing p with
  | nil => exact hp
  | cons e es ih =>
    simp only [runProfile]
    exact ih _ (stepProfile_inv e p hp)

/-! ## Script-class disjointness -/

theorem isJaChar_not_latin (c : Char) (h : isJaChar c = true) :
    isLatinChar c = false := by
  cases hl : isLatinChar c with
  | false => rfl
  | true =>
    exfalso
    simp only [isJaChar, Bool.or_eq_true, Bool.and_eq_true, decide_eq_true_eq] at h
    simp only [isLatinChar, Bool.or_eq_true, Bool.and_eq_true, decide_eq_true_eq] at hl
    omega

theorem isLatinChar_not_ja (c : Char) (h : isLatinChar c = true) :
    isJaChar c = false := by
  cases hl : isJaChar c with
  | false => rfl
  | true =>
    exfalso
    simp only [isJaChar, Bool.or_eq_true, Bool.and_eq_true, decide_eq_true_eq] at hl
    simp only [isLatinChar, Bool.or_eq_true, Bool.and_eq_true, decide_eq_true_eq] at h
    omega

theorem isLowerLatinChar_not_ja (c : Char) (h : isLowerLatinChar c = true) :
    isJaChar c = false := by
  cases hl : isJaChar c with
  | false => rfl
  | true =>
    exfalso
    simp only [isJaChar, Bool.or_eq_true, Bool.and_eq_true, decide_eq_true_eq] at hl
    simp only [isLowerLatinChar, Bool.and_eq_true, decide_eq_true_eq] at h
    omega

theorem isUpperLatinChar_not_ja (c : Char) (h : isUpperLatinChar c = true) :
    isJaChar c = false ∧ isLowerLatinChar c = false := by
  simp only [isUpperLatinChar, Bool.and_eq_true, decide_eq_true_eq] at h
  constructor
  · cases hl : isJaChar c with
    | false => rfl
    | true =>
      exfalso
      simp only [isJaChar, Bool.or_eq_true, Bool.and_eq_true, decide_eq_true_eq] at hl
      omega
  · cases hl : isLowerLatinChar c with
    | false => rfl
    | true =>
      exfalso
      simp only [isLowerLatinChar, Bool.and_eq_true, decide_eq_true_eq] at hl
      omega

/-! ## Claim C1 -/

/-- C1 counterexample: the input あああああa has 5 native-script and 1
Latin character, a target ratio of 1/6 < 0.2, so the claim says the
detector returns the source class (`"ja"`); both detector revisions
return `"mixed"` instead — no ratio is computed anywhere. -/
theorem C1_ratio_counterexample :
    "あああああa".data.any isJaChar = true ∧
    "あああああa".data.any isLatinChar = true ∧
    jaCharCount "あああああa" = 5 ∧
    latinCharCount "あああああa" = 1 ∧
    ((latinCharCount "あああああa" : ℚ) /
        ((latinCharCount "あああああa" : ℚ) + (jaCharCount "あああああa" : ℚ)) < 1 / 5) ∧
    detectLanguage "あああああa" = "mixed" ∧
    detectLanguage "あああああa" ≠ "ja" ∧
    detectLanguageLowerOnly "あああああa" ≠ "ja" := by
  have h5 : jaCharCount "あああああa" = 5 := by decide
  have h1 : latinCharCount "あああああa" = 1 := by decide
  refine ⟨by decide, by decide, h5, h1, ?_, by decide, by decide, by decide⟩
  rw [h5, h1]
  norm_num

/-- C1 (amended): whenever the input has at least one native-script
character and at least one target-script character, `detectLanguage`
returns `"mixed"` unconditionally — there are no ratio thresholds; the
0.2 / 0.8 policy of the spec is not implemented by either revision of
the detector. -/
theorem C1_both_scripts_mixed (text : String)
    (hJa : text.data.any isJaChar = true) :
    (text.data.any isLatinChar = true → detectLanguage text = "mixed") ∧
    (text.data.any isLowerLatinChar = true → detectLanguageLowerOnly text = "mixed") := by
  constructor
  · intro hEn
    simp [detectLanguage, hJa, hEn]
  · intro hEn
    simp [detectLanguageLowerOnly, hJa, hEn]

/-- C1 witness: a concrete mixed sentence. -/
theorem C1_both_scripts_mixed_witness :
    detectLanguage "会議はmeeting" = "mixed" ∧
    detectLanguageLowerOnly "会議はmeeting" = "mixed" :=
  ⟨(C1_both_scripts_mixed "会議はmeeting" (by decide)).1 (by decide),
   (C1_both_scripts_mixed "会議はmeeting" (by decide)).2 (by decide)⟩

/-! ## Claim C2 -/

/-- C2: a non-empty text of only native-script characters is detected as
`"ja"`; a non-empty text of only Latin letters is detected as `"en"`;
the empty string and texts with neither script class give `"other"`.
For the lowercase-only revision, a non-empty all-lowercase text gives
`"en"` while a text of only uppercase letters (an all-caps acronym)
gives `"other"`. -/
theorem C2_detect_script_classes (text : String) :
    (text.data ≠ [] → (∀ c ∈ text.data, isJaChar c = true) →
      detectLanguage text = "ja") ∧
    (text.data ≠ [] → (∀ c ∈ text.data, isLatinChar c = true) →
      detectLanguage text = "en") ∧
    ((∀ c ∈ text.data, isJaChar c = false ∧ isLatinChar c = false) →
      detectLanguage text = "other") ∧
    (text.data ≠ [] → (∀ c ∈ text.data, isLowerLatinChar c = true) →
      detectLanguageLowerOnly text = "en") ∧
    ((∀ c ∈ text.data, isUpperLatinChar c = true) →
      detectLanguageLowerOnly text = "other") := by
  refine ⟨?_, ?_, ?_, ?_, ?_⟩
  · intro hne hall
    obtain ⟨c, hc⟩ := List.exists_mem_of_ne_nil _ hne
    have hJa : text.data.any isJaChar = true :=
      List.any_eq_true.mpr ⟨c, hc, hall c hc⟩
    have hEn : text.data.any isLatinChar = false := by
      rw [List.any_eq_false]
      intro d hd
      rw [isJaChar_not_latin d (hall d hd)]
      simp
    simp [detectLanguage, hJa, hEn]
  · intro hne hall
    obtain ⟨c, hc⟩ := List.exists_mem_of_ne_nil _ hne
    have hEn : text.data.any isLatinChar = true :=
      List.any_eq_true.mpr ⟨c, hc, hall c hc⟩
    have hJa : text.data.any isJaChar = false := by
      rw [List.any_eq_false]
      intro d hd
      rw [isLatinChar_not_ja d (hall d hd)]
      simp
    simp [detectLanguage, hJa, hEn]
  · intro hall
    have hJa : text.data.any isJaChar = false := by
      rw [List.any_eq_false]
      intro d hd
      rw [(hall d hd).1]
      simp
    have hEn : text.data.any isLatinChar = false := by
      rw [List.any_eq_false]
      intro d hd
      rw [(hall d hd).2]
      simp
    simp [detectLanguage, hJa, hEn]
  · intro hne hall
    obtain ⟨c, hc⟩ := List.exists_mem_of_ne_nil _ hne
    have hEn : text.data.any isLowerLatinChar = true :=
      List.any_eq_true.mpr ⟨c, hc, hall c hc⟩
    have hJa : text.data.any isJaChar = false := by
      rw [List.any_eq_false]
      intro d hd
      rw [isLowerLatinChar_not_ja d (hall d hd)]
      simp
    simp [detectLanguageLowerOnly, hJa, hEn]
  · intro hall
    have hJa : text.data.any isJaChar = false := by
      rw [List.any_eq_false]
      intro d hd
      rw [(isUpperLatinChar_not_ja d (hall d hd)).1]
      simp
    have hEn : text.data.any isLowerLatinChar = false := by
      rw [List.any_eq_false]
      intro d hd
      rw [(isUpperLatinChar_not_ja d (hall d hd)).2]
      simp
    simp [detectLanguageLowerOnly, hJa, hEn]

/-- C2 witness: concrete inputs of each pure script class. -/
theorem C2_detect_script_classes_witness :
    detectLanguage "こんにちは" = "ja" ∧
    detectLanguage "Hello" = "en" ∧
    detectLanguage "" = "other" ∧
    detectLanguage "123 !?🙂" = "other" ∧
    detectLanguageLowerOnly "hello" = "en" ∧
    detectLanguageLowerOnly "DB" = "other" :=
  ⟨(C2_detect_script_classes "こんにちは").1 (by decide) (by decide),
   (C2_detect_script_classes "Hello").2.1 (by decide) (by decide),
   (C2_detect_script_classes "").2.2.1 (by decide),
   (C2_detect_script_classes "123 !?🙂").2.2.1 (by decide),
   (C2_detect_script_classes "hello").2.2.2.1 (by decide) (by decide),
   (C2_detect_script_classes "DB").2.2.2.2 (by decide)⟩

/-! ## Claim C3 -/

theorem resolveToneOverride_mem (d label : String)
    (hd : d = "casual" ∨ d = "polite" ∨ d = "business") :
    resolveToneOverride d label = "casual" ∨
    resolveToneOverride d label = "polite" ∨
    resolveToneOverride d label = "business" := by
  simp only [resolveToneOverride]
  split_ifs <;> simp [hd]

theorem handleToneChangeMid_ok (B : Backend) (user : UserProfile)
    (label src raw : String)
    (hsrc : user.last_source_ja = some src) (hne : src ≠ "")
    (hgen : B.complete (GenCall.forward src
        (some (resolveToneOverride user.tone_default label))
        (jsOr (some (resolveToneOverride user.tone_default label))
          user.tone_default)) = .ok raw) :
    handleToneChangeMid B user label = .ok
      { profile := { user with last_output_en := some (strTrim raw),
                               last_mode := some "JA_TO_EN" }
        messages := [⟨jsOr (some (strTrim raw)) (strTrim raw),
                      some toneQuickReplyItemsMid⟩]
        genCalls := [GenCall.forward src
          (some (resolveToneOverride user.tone_default label))
          (jsOr (some (resolveToneOverride user.tone_default label))
            user.tone_default)] } := by
  unfold handleToneChangeMid generateEnglishFromJapanese
  rw [hsrc]
  have hT : (!(isTruthy (some src))) = false := by
    simp [isTruthy, hne]
  rw [hT, if_neg (by simp)]
  simp only [Option.getD_some, hgen]

/-- C3: with a stored `last_source_ja`, a tone-change command resolves
its label to one of casual / polite / business (by the substring tests of
`resolveToneOverride`), regenerates from the stored `last_source_ja` —
the generation call carries `src`, not the command text — and overwrites
`last_output_en` and `last_mode` with the new result. -/
theorem C3_tone_change_regenerates (B : Backend) (user : UserProfile)
    (label src raw : String)
    (hsrc : user.last_source_ja = some src) (hne : src ≠ "")
    (hd : user.tone_default = "casual" ∨ user.tone_default = "polite" ∨
      user.tone_default = "business")
    (hgen : B.complete (GenCall.forward src
        (some (resolveToneOverride user.tone_default label))
        (jsOr (some (resolveToneOverride user.tone_default label))
          user.tone_default)) = .ok raw) :
    (resolveToneOverride user.tone_default label = "casual" ∨
     resolveToneOverride user.tone_default label = "polite" ∨
     resolveToneOverride user.tone_default label = "business") ∧
    handleToneChangeMid B user label = .ok
      { profile := { user with last_output_en := some (strTrim raw),
                               last_mode := some "JA_TO_EN" }
        messages := [⟨jsOr (some (strTrim raw)) (strTrim raw),
                      some toneQuickReplyItemsMid⟩]
        genCalls := [GenCall.forward src
          (some (resolveToneOverride user.tone_default label))
          (jsOr (some (resolveToneOverride user.tone_default label))
            user.tone_default)] } :=
  ⟨resolveToneOverride_mem _ _ hd,
   handleToneChangeMid_ok B user label src raw hsrc hne hgen⟩

/-- C3 witness: a decorated casual label on a profile holding a stored
source sentence. -/
theorem C3_tone_change_regenerates_witness :
    resolveToneOverride userWithTurn.tone_default "😊 カジュアルに" = "casual" ∧
    handleToneChangeMid okBackend userWithTurn "😊 カジュアルに" = .ok
      { profile := { userWithTurn with last_output_en := some (strTrim "Hello."),
                                       last_mode := some "JA_TO_EN" }
        messages := [⟨jsOr (some (strTrim "Hello.")) (strTrim "Hello."),
                      some toneQuickReplyItemsMid⟩]
        genCalls := [GenCall.forward "明日の会議をリスケしたいです。"
          (some (resolveToneOverride userWithTurn.tone_default "😊 カジュアルに"))
          (jsOr (some (resolveToneOverride userWithTurn.tone_default "😊 カジュアルに"))
            userWithTurn.tone_default)] } := by
  have h := C3_tone_change_regenerates okBackend userWithTurn "😊 カジュアルに"
    "明日の会議をリスケしたいです。" "Hello." rfl (by decide)
    (Or.inr (Or.inl rfl)) rfl
  exact ⟨by decide, h.2⟩

/-! ## Claim C4 -/

/-- C4: with a stored non-empty `last_output_en`, the accept/upgrade
handler sends exactly two messages, the first being the accepted English
verbatim with no quick replies (copy-ready); when the lesson generation
succeeds with non-empty content the second message is the lesson, and
when it fails the handler still sends the copy message followed by the
non-empty degraded message. -/
theorem C4_accept_two_messages (B : Backend) (user : UserProfile) (en : String)
    (hen : user.last_output_en = some en) (hne : en ≠ "") :
    ((handleAcceptCurrentEnglish B user).messages.length = 2 ∧
     (handleAcceptCurrentEnglish B user).messages.head? = some ⟨en, none⟩) ∧
    (∀ raw, B.complete (GenCall.lesson en) = .ok raw → strTrim raw ≠ "" →
      (handleAcceptCurrentEnglish B user).messages =
        [⟨en, none⟩,
         ⟨"ワンポイントレッスン\n------------------------------\n" ++ strTrim raw,
          some baseQuickReplyItems⟩]) ∧
    (B.complete (GenCall.lesson en) = .error () →
      (handleAcceptCurrentEnglish B user).messages =
        [⟨en, none⟩, ⟨"コピペ用の英文をお届けしました。", some baseQuickReplyItems⟩] ∧
      "コピペ用の英文をお届けしました。" ≠ "") := by
  unfold handleAcceptCurrentEnglish
  rw [hen]
  simp only [if_neg hne]
  refine ⟨⟨rfl, rfl⟩, ?_, ?_⟩
  · intro raw hB hraw
    rw [hB]
    simp only [if_pos hraw]
  · intro hB
    rw [hB]
    simp only [ne_eq, not_true_eq_false, if_neg]
    exact ⟨rfl, by decide⟩

/-- C4 witness: the failure path still yields the copy message plus the
degraded message. -/
theorem C4_accept_two_messages_witness :
    (handleAcceptCurrentEnglish failBackend userWithTurn).messages =
      [⟨"Sounds good.", none⟩,
       ⟨"コピペ用の英文をお届けしました。", some baseQuickReplyItems⟩] :=
  ((C4_accept_two_messages failBackend userWithTurn "Sounds good." rfl
    (by decide)).2.2 rfl).1

/-! ## Claim C5 -/

/-- C5: a tone-change command with no stored `last_source_ja`, and an
accept/upgrade command with no stored `last_output_en`, are no-ops: the
handler replies with a guidance message, makes zero generation calls,
and leaves every profile field unchanged. -/
theorem C5_guard_noops (B : Backend) (user : UserProfile) (label : String)
    (h1 : user.last_source_ja = none) (h2 : user.last_output_en = none) :
    handleToneChangeMid B user label = .ok
      { profile := user
        messages := [⟨"まず日本語の文を送って英文を作ってから、文体を変えてみてください。",
                      some (baseQuickReplyItemsMid false)⟩]
        genCalls := [] } ∧
    handleAcceptCurrentEnglishMid B user =
      { profile := user
        messages := [⟨"まず日本語の文を送って、英文を作ってから選んでください。",
                      some (baseQuickReplyItemsMid false)⟩]
        genCalls := [] } := by
  constructor
  · unfold handleToneChangeMid
    rw [h1]
    rfl
  · unfold handleAcceptCurrentEnglishMid
    rw [h2]
    rfl

/-- C5 witness: both guards on a freshly created profile. -/
theorem C5_guard_noops_witness :
    handleToneChangeMid okBackend (freshUserProfile "U") "カジュアル" = .ok
      { profile := freshUserProfile "U"
        messages := [⟨"まず日本語の文を送って英文を作ってから、文体を変えてみてください。",
                      some (baseQuickReplyItemsMid false)⟩]
        genCalls := [] } ∧
    handleAcceptCurrentEnglishMid okBackend (freshUserProfile "U") =
      { profile := freshUserProfile "U"
        messages := [⟨"まず日本語の文を送って、英文を作ってから選んでください。",
                      some (baseQuickReplyItemsMid false)⟩]
        genCalls := [] } :=
  C5_guard_noops okBackend (freshUserProfile "U") "カジュアル" rfl rfl

/-! ## Claim C6 -/

/-- C6 counterexample: with a failing generation backend, the final
revision's forward handler does not reply with an apology — it has no
`try`/`catch` and the call fails before any store write, so the whole
turn is the propagated exception and no outbound message exists. -/
theorem C6_no_apology_counterexample :
    handleJaToEn failBackend (freshUserProfile "U") "こんにちは" =
      Except.error () := rfl

/-- C6 (amended): when the forward generation call fails, the turn
performs no profile mutation — `last_source_ja` / `last_output_en` /
`last_mode` keep their pre-turn values because the handler throws before
its store write — but the handler sends no apology message either: the
exception propagates out of `handleJaToEn` (only the earliest revision's
`handleTextMessage`, which has no `last*` fields, catches and replies
with an apology). -/
theorem C6_failure_no_mutation (B : Backend) (u : UserProfile) (text : String)
    (h : B.complete (GenCall.forward text none (jsOr none u.tone_default)) =
      .error ())
    (htrim : strTrim text = text)
    (hroute : routeOf text = Route.detectedJa) :
    handleJaToEn B u text = .error () ∧ stepProfile u ⟨text, B⟩ = u := by
  have hja : handleJaToEn B u text = .error () := by
    unfold handleJaToEn generateEnglishFromJapanese
    simp only [h]
  refine ⟨hja, ?_⟩
  unfold stepProfile runEvent
  simp only [htrim]
  unfold runEventText
  rw [hroute]
  simp only [hja]

/-- C6 witness: a failing backend on a native-script message leaves the
fresh profile untouched. -/
theorem C6_failure_no_mutation_witness :
    handleJaToEn failBackend (freshUserProfile "U2") "明日は晴れです。" = .error () ∧
    stepProfile (freshUserProfile "U2") ⟨"明日は晴れです。", failBackend⟩ =
      freshUserProfile "U2" :=
  C6_failure_no_mutation failBackend (freshUserProfile "U2") "明日は晴れです。"
    rfl (by decide) (by decide)

/-! ## Claim C7 -/

/-- C7: in the reverse flow, a code fence wrapping the backend content is
stripped before JSON parsing is attempted (a fenced body comes out of
`stripCodeFence` bare), and when the stripped text still fails to parse
the handler does not raise: it returns an `ok` result carrying the raw
(stripped) text as the translation and an empty glossary. -/
theorem C7_fence_strip_and_fallback (B : Backend) (s content : String)
    (hok : B.complete (GenCall.reverse s) = .ok content) :
    (∀ body : String, jsTrim body.data = body.data →
      stripCodeFence ("```json\n" ++ body ++ "\n```") = body) ∧
    (B.jsonParse (stripCodeFence content) = none →
      explainEnglishToJapaneseWithGlossary B s =
        .ok ({ ja := stripCodeFence content, glossary := [] },
          GenCall.reverse s)) := by
  constructor
  · intro body hb
    exact stripCodeFence_fenced body hb
  · intro hparse
    unfold explainEnglishToJapaneseWithGlossary
    simp only [hok, hparse]

/-- C7 witness: a fenced non-JSON reply still produces an `ok` result
with the unfenced text as the translation and no glossary. -/
theorem C7_fence_strip_and_fallback_witness :
    stripCodeFence "```json\nhello world\n```" = "hello world" ∧
    explainEnglishToJapaneseWithGlossary fencedBackend "Long time no see." =
      .ok ({ ja := "hello world", glossary := [] },
        GenCall.reverse "Long time no see.") := by
  have h := C7_fence_strip_and_fallback fencedBackend "Long time no see."
    "```json\nhello world\n```" rfl
  have h1 : stripCodeFence "```json\nhello world\n```" = "hello world" :=
    h.1 "hello world" (by decide)
  refine ⟨h1, ?_⟩
  have h2 := h.2 rfl
  rw [h1] at h2
  exact h2

/-! ## Claim C8 -/

/-- C8: starting from a freshly created profile, after any sequence of
handled events there is no reachable stored state in which
`last_output_en` is non-null while `last_source_ja` is null: the forward
handler writes the pair together, a tone-change run only fires when
`last_source_ja` is already stored, and no other handler touches either
field. -/
theorem C8_paired_last_fields (uid : String) (events : List Event)
    (h : (runProfile (freshUserProfile uid) events).last_output_en ≠ none) :
    (runProfile (freshUserProfile uid) events).last_source_ja ≠ none :=
  runProfile_inv events (freshUserProfile uid) (fun hno => absurd rfl hno) h

/-- C8 witness: after one successful forward turn, `last_output_en` is
set and so `last_source_ja` is set. -/
theorem C8_paired_last_fields_witness :
    (runProfile (freshUserProfile "U") [⟨"こんにちは", okBackend⟩]).last_source_ja ≠
      none :=
  C8_paired_last_fields "U" [⟨"こんにちは", okBackend⟩] (by decide)

/-! ## Claim C9 -/

/-- C9: an input routed to the mixed handler produces zero generation
calls and a single reply whose first two options embed the original
input verbatim behind the two direction markers; and on the next turn, a
message carrying such a marker routes directly to the forward or reverse
handler with exactly the embedded original text, whatever
`detectLanguage` would say — the embed/extract round trip recovers the
original text. -/
theorem C9_mixed_options_roundtrip (B : Backend) (u : UserProfile)
    (text t : String) :
    (routeOf text = Route.detectedMixed →
      runEventText B u text = .ok
        { profile := u
          messages :=
            [⟨"日本語と英語がいっしょに入っているみたいです。\n" ++
              "この文を「英訳」か「和訳」か、どちらで扱うか選んでください。",
              some ([⟨"英訳してほしい", "TRANSLATE_TO_EN:::" ++ text⟩,
                     ⟨"和訳してほしい", "TRANSLATE_TO_JA:::" ++ text⟩] ++
                    baseQuickReplyItems)⟩]
          genCalls := [] }) ∧
    (jsTrim t.data = t.data →
      runEvent B u ("TRANSLATE_TO_EN:::" ++ t) = handleJaToEn B u t ∧
      runEvent B u ("TRANSLATE_TO_JA:::" ++ t) = handleEnToJa B u t) := by
  constructor
  · intro hroute
    unfold runEventText
    rw [hroute]
    rfl
  · intro ht
    constructor
    · have hdata : ("TRANSLATE_TO_EN:::" ++ t).data =
          "TRANSLATE_TO_EN:::".data ++ t.data := String.data_append _ _
      have htrim : strTrim ("TRANSLATE_TO_EN:::" ++ t) = "TRANSLATE_TO_EN:::" ++ t := by
        unfold strTrim
        rw [hdata, jsTrim_append_solid _ _ (by decide) (by decide) (by decide) ht,
          ← hdata, strMk_data]
      have hroute : routeOf ("TRANSLATE_TO_EN:::" ++ t) = Route.translateToEn t := by
        unfold routeOf
        rw [hdata]
        rw [if_pos (chPre_append _ _)]
        rw [replOnce_append, strMk_data]
      unfold runEvent
      rw [htrim]
      unfold runEventText
      rw [hroute]
    · have hdata : ("TRANSLATE_TO_JA:::" ++ t).data =
          "TRANSLATE_TO_JA:::".data ++ t.data := String.data_append _ _
      have htrim : strTrim ("TRANSLATE_TO_JA:::" ++ t) = "TRANSLATE_TO_JA:::" ++ t := by
        unfold strTrim
        rw [hdata, jsTrim_append_solid _ _ (by decide) (by decide) (by decide) ht,
          ← hdata, strMk_data]
      have hroute : routeOf ("TRANSLATE_TO_JA:::" ++ t) = Route.translateToJa t := by
        unfold routeOf
        rw [hdata]
        have hfalse : chPre "TRANSLATE_TO_EN:::".data
            ("TRANSLATE_TO_JA:::".data ++ t.data) = false := rfl
        rw [hfalse, if_neg (by simp)]
        rw [if_pos (chPre_append _ _)]
        rw [replOnce_append, strMk_data]
      unfold runEvent
      rw [htrim]
      unfold runEventText
      rw [hroute]

/-- C9 witness: a concrete mixed sentence and its two follow-up
payloads. -/
theorem C9_mixed_options_roundtrip_witness :
    runEventText okBackend (freshUserProfile "U") "日本語とEnglish" = .ok
      { profile := freshUserProfile "U"
        messages :=
          [⟨"日本語と英語がいっしょに入っているみたいです。\n" ++
            "この文を「英訳」か「和訳」か、どちらで扱うか選んでください。",
            some ([⟨"英訳してほしい", "TRANSLATE_TO_EN:::" ++ "日本語とEnglish"⟩,
                   ⟨"和訳してほしい", "TRANSLATE_TO_JA:::" ++ "日本語とEnglish"⟩] ++
                  baseQuickReplyItems)⟩]
        genCalls := [] } ∧
    runEvent okBackend (freshUserProfile "U") ("TRANSLATE_TO_EN:::" ++ "日本語とEnglish") =
      handleJaToEn okBackend (freshUserProfile "U") "日本語とEnglish" ∧
    runEvent okBackend (freshUserProfile "U") ("TRANSLATE_TO_JA:::" ++ "日本語とEnglish") =
      handleEnToJa okBackend (freshUserProfile "U") "日本語とEnglish" :=
  ⟨(C9_mixed_options_roundtrip okBackend (freshUserProfile "U") "日本語とEnglish"
      "日本語とEnglish").1 (by decide),
   (C9_mixed_options_roundtrip okBackend (freshUserProfile "U") "日本語とEnglish"
      "日本語とEnglish").2 (by decide)⟩

/-! ## Claim C10 -/

/-- C10: a tone-change label containing none of the keywords カジュアル,
丁寧, ビジネス is not rejected — with a stored `last_source_ja` the
handler still generates, with the user's stored `tone_default` as the
effective override; and when several keywords occur, the last keyword in
the fixed check order カジュアル, 丁寧, ビジネス determines the
override (ビジネス beats 丁寧 beats カジュアル). -/
theorem C10_tone_keyword_order (B : Backend) (user : UserProfile)
    (label src raw : String)
    (hsrc : user.last_source_ja = some src) (hne : src ≠ "") :
    (chSub "ビジネス".data label.data = true →
      resolveToneOverride user.tone_default label = "business") ∧
    (chSub "丁寧".data label.data = true → chSub "ビジネス".data label.data = false →
      resolveToneOverride user.tone_default label = "polite") ∧
    (chSub "カジュアル".data label.data = true → chSub "丁寧".data label.data = false →
      chSub "ビジネス".data label.data = false →
      resolveToneOverride user.tone_default label = "casual") ∧
    (chSub "カジュアル".data label.data = false → chSub "丁寧".data label.data = false →
      chSub "ビジネス".data label.data = false →
      resolveToneOverride user.tone_default label = user.tone_default ∧
      (B.complete (GenCall.forward src (some user.tone_default)
          (jsOr (some user.tone_default) user.tone_default)) = .ok raw →
        handleToneChangeMid B user label = .ok
          { profile := { user with last_output_en := some (strTrim raw),
                                   last_mode := some "JA_TO_EN" }
            messages := [⟨jsOr (some (strTrim raw)) (strTrim raw),
                          some toneQuickReplyItemsMid⟩]
            genCalls := [GenCall.forward src (some user.tone_default)
              (jsOr (some user.tone_default) user.tone_default)] })) := by
  refine ⟨?_, ?_, ?_, ?_⟩
  · intro hbiz
    simp [resolveToneOverride, hbiz]
  · intro hpol hbiz
    simp [resolveToneOverride, hpol, hbiz]
  · intro hcas hpol hbiz
    simp [resolveToneOverride, hcas, hpol, hbiz]
  · intro hcas hpol hbiz
    have hres : resolveToneOverride user.tone_default label = user.tone_default := by
      simp [resolveToneOverride, hcas, hpol, hbiz]
    refine ⟨hres, ?_⟩
    intro hgen
    have h := handleToneChangeMid_ok B user label src raw hsrc hne (by rw [hres]; exact hgen)
    rw [hres] at h
    exact h

/-- C10 witness: a label holding two keywords resolves to the later one
in the check order, and a keyword-free label still generates with the
stored default tone. -/
theorem C10_tone_keyword_order_witness :
    resolveToneOverride userWithTurn.tone_default "カジュアルビジネス" = "business" ∧
    handleToneChangeMid okBackend userWithTurn "ふつうで" = .ok
      { profile := { userWithTurn with last_output_en := some (strTrim "Hello."),
                                       last_mode := some "JA_TO_EN" }
        messages := [⟨jsOr (some (strTrim "Hello.")) (strTrim "Hello."),
                      some toneQuickReplyItemsMid⟩]
        genCalls := [GenCall.forward "明日の会議をリスケしたいです。"
          (some userWithTurn.tone_default)
          (jsOr (some userWithTurn.tone_default) userWithTurn.tone_default)] } :=
  ⟨(C10_tone_keyword_order okBackend userWithTurn "カジュアルビジネス"
      "明日の会議をリスケしたいです。" "Hello." rfl (by decide)).1 (by decide),
   ((C10_tone_keyword_order okBackend userWithTurn "ふつうで"
      "明日の会議をリスケしたいです。" "Hello." rfl (by decide)).2.2.2
      (by decide) (by decide) (by decide)).2 rfl⟩
